import Mathlib

/-!
Shallow embedding of the `ui` package of go-cli-ui (`src/ui/non_interactive.go`):
the `NonInteractiveUI` wrapper and the `WriterUI` console implementation.

Modelling conventions:
* A Go `error` value is `Option GoError`: `none` is the nil error, `some msg`
  a non-nil error carrying its message.
* The external interactive-prompt engine (`interact.NewInteraction(...).Resolve(&x)`)
  is a parameter of each function that uses it: it receives the prompt label,
  any choices, and the initial value of the resolution target, and either
  succeeds with the resolved value of the target or fails with an error message.
* Stream writes are modelled by their observable effect (which stream, what
  bytes) plus an externally determined `WriteResult` for whether the write
  failed; logger calls are recorded as `LogCall` values.
* A Go function that can `panic` returns a `GoOutcome`.
-/

namespace GoCliUI

/-- The message of a non-nil Go `error`; a Go `error` variable is `Option GoError`
(`none` = nil). -/
abbrev GoError := String

/-- Outcome of `interact.Interaction.Resolve(&target)`: on success `target`
holds the resolved value, otherwise an error is returned. -/
inductive ResolveResult (α : Type) where
  | ok (value : α)
  | fail (msg : GoError)
deriving DecidableEq, Repr

/-- Outcome of a Go call that may `panic` instead of returning normally. -/
inductive GoOutcome (α : Type) where
  | ret (value : α)
  | panics (msg : String)
deriving DecidableEq, Repr

/-- Modelled from the spec: the text-prompt options record ("a label string, a
default value (string for text), and an optional validation function mapping a
candidate default to (is-valid, error)"). The struct declaration itself is not
among the given sources; the fields are the ones the source functions read:
`NonInteractiveUI.AskForText` reads `Default` and `ValidateFunc`, while
`WriterUI.AskForText` reads `Label` and `DefaultValue`. -/
structure TextOpts where
  Label : String
  Default : String
  DefaultValue : String
  ValidateFunc : Option (String → Bool × Option GoError)

/-- Modelled from the spec: the choice-prompt options record ("an index plus an
ordered list of choice labels", with an optional validator). Fields are the
ones the source functions read: `NonInteractiveUI.AskForChoice` reads `Default`
and `ValidateFunc`, while `WriterUI.AskForChoice` reads `Label`, `Choices` and
`DefaultValue`. -/
structure ChoiceOpts where
  Label : String
  Choices : List String
  Default : Int
  DefaultValue : Int
  ValidateFunc : Option (Int → Bool × Option GoError)

/-- `NonInteractiveUI` wraps an arbitrary parent UI (the type of the parent is a
parameter; the prompt methods below never consult it). -/
structure NonInteractiveUI (Parent : Type) where
  parent : Parent

/-- `NonInteractiveUI.AskForText`: if a validator is present, run it on the
default; on a non-nil error or an invalid report, return `("", err)`;
otherwise return the default with a nil error. -/
def NonInteractiveUI.AskForText {P : Type} (ui : NonInteractiveUI P)
    (opts : TextOpts) : String × Option GoError :=
  match opts.ValidateFunc with
  | some validate =>
      let r := validate opts.Default
      if r.2.isSome || !r.1 then ("", r.2)
      else (opts.Default, none)
  | none => (opts.Default, none)

/-- `NonInteractiveUI.AskForChoice`: same pattern as `AskForText` with the
default index; on validator error or invalid report, return `(0, err)`. -/
def NonInteractiveUI.AskForChoice {P : Type} (ui : NonInteractiveUI P)
    (opts : ChoiceOpts) : Int × Option GoError :=
  match opts.ValidateFunc with
  | some validate =>
      let r := validate opts.Default
      if r.2.isSome || !r.1 then (0, r.2)
      else (opts.Default, none)
  | none => (opts.Default, none)

/-- `NonInteractiveUI.AskForPassword` panics unconditionally. -/
def NonInteractiveUI.AskForPassword {P : Type} (ui : NonInteractiveUI P)
    (label : String) : GoOutcome (String × Option GoError) :=
  .panics "Cannot ask for password in non-interactive UI"

/-- `NonInteractiveUI.AskForConfirmation` always responds successfully. -/
def NonInteractiveUI.AskForConfirmation {P : Type} (ui : NonInteractiveUI P) :
    Option GoError :=
  none

/-- `NonInteractiveUI.IsInteractive` reports false. -/
def NonInteractiveUI.IsInteractive {P : Type} (ui : NonInteractiveUI P) : Bool :=
  false

/-- The two streams a `WriterUI` holds (`outWriter`, `errWriter`). -/
inductive UIStream where
  | outWriter
  | errWriter
deriving DecidableEq, Repr

/-- One attempted write: the stream it targets and the bytes handed to it. -/
structure WriteEvent where
  stream : UIStream
  data : String
deriving DecidableEq, Repr

/-- One call to the external logger: `logger.Error(tag, pattern, args...)`. -/
structure LogCall where
  tag : String
  pattern : String
  args : List String
deriving DecidableEq, Repr

/-- The caller-observable effects of one `WriterUI` output operation. -/
structure OutputEffects where
  writes : List WriteEvent
  logs : List LogCall
deriving DecidableEq, Repr

/-- Externally determined outcome of the underlying stream write (or table
render): Go `err == nil` is `ok`, otherwise `fail` with the error message. -/
inductive WriteResult where
  | ok
  | fail (e : GoError)
deriving DecidableEq, Repr

/-- The fixed log tag set by `NewWriterUI`. -/
def WriterUI.logTag : String := "ui"

/-- Helper: the log calls an output operation makes for a given write outcome,
with the failPattern of the source and payload arguments. -/
def WriterUI.failureLogs (failPattern : String) (payloadArgs : List String)
    (w : WriteResult) : List LogCall :=
  match w with
  | .ok => []
  | .fail e => [⟨WriterUI.logTag, failPattern, payloadArgs ++ [e]⟩]

/-- `WriterUI.ErrorLinef`: `Fprintln` of the formatted message to the error
stream; a write failure is logged, never returned (the Go signature has no
return value: the `Option GoError` component models the absent caller-visible
error). `message` stands for `fmt.Sprintf(pattern, args...)`, which is
external formatting. -/
def WriterUI.ErrorLinef (message : String) (w : WriteResult) :
    OutputEffects × Option GoError :=
  (⟨[⟨.errWriter, message ++ "\n"⟩],
    WriterUI.failureLogs "UI.ErrorLinef failed (message=\x27%s\x27): %s" [message] w⟩,
   none)

/-- `WriterUI.PrintLinef`: `Fprintln` of the formatted message to the normal
stream; write failure logged, never returned. -/
def WriterUI.PrintLinef (message : String) (w : WriteResult) :
    OutputEffects × Option GoError :=
  (⟨[⟨.outWriter, message ++ "\n"⟩],
    WriterUI.failureLogs "UI.PrintLinef failed (message=\x27%s\x27): %s" [message] w⟩,
   none)

/-- `WriterUI.BeginLinef`: `Fprint` (no trailing newline) of the formatted
message to the normal stream; write failure logged, never returned. -/
def WriterUI.BeginLinef (message : String) (w : WriteResult) :
    OutputEffects × Option GoError :=
  (⟨[⟨.outWriter, message⟩],
    WriterUI.failureLogs "UI.BeginLinef failed (message=\x27%s\x27): %s" [message] w⟩,
   none)

/-- `WriterUI.EndLinef`: `Fprintln` of the formatted message to the normal
stream; write failure logged, never returned. -/
def WriterUI.EndLinef (message : String) (w : WriteResult) :
    OutputEffects × Option GoError :=
  (⟨[⟨.outWriter, message ++ "\n"⟩],
    WriterUI.failureLogs "UI.EndLinef failed (message=\x27%s\x27): %s" [message] w⟩,
   none)

/-- `WriterUI.PrintBlock`: raw `Write` of the byte block (modelled as a byte
string) to the normal stream; write failure logged, never returned. -/
def WriterUI.PrintBlock (block : String) (w : WriteResult) :
    OutputEffects × Option GoError :=
  (⟨[⟨.outWriter, block⟩],
    WriterUI.failureLogs "UI.PrintBlock failed (message=\x27%s\x27): %s" [block] w⟩,
   none)

/-- `WriterUI.PrintErrorBlock`: `Fprint` of the literal text to the NORMAL
stream (`ui.outWriter` in the source, despite the name); write failure logged,
never returned. -/
def WriterUI.PrintErrorBlock (block : String) (w : WriteResult) :
    OutputEffects × Option GoError :=
  (⟨[⟨.outWriter, block⟩],
    WriterUI.failureLogs "UI.PrintErrorBlock failed (message=\x27%s\x27): %s" [block] w⟩,
   none)

/-- `WriterUI.PrintTable`: delegates to the external table engine,
`table.Print(ui.outWriter)`; `rendered` abstracts the bytes the engine writes
to the normal stream and `w` its returned error. A render failure is logged —
with only the underlying error as argument (`"UI.PrintTable failed: %s"`),
no payload — and never returned. -/
def WriterUI.PrintTable (rendered : String) (w : WriteResult) :
    OutputEffects × Option GoError :=
  (⟨[⟨.outWriter, rendered⟩],
    WriterUI.failureLogs "UI.PrintTable failed: %s" [] w⟩,
   none)

/-- `strconv.Itoa` on a Go `int`: decimal string, minus sign for negatives. -/
def strconv.Itoa (i : Int) : String := toString i

/-- Go `%s` formatting of a `[]string` value: entries space-separated inside
square brackets. -/
def goFmtStringSlice (xs : List String) : String :=
  "[" ++ String.intercalate " " xs ++ "]"

/-- One selectable entry handed to the prompt engine:
`interact.Choice{Display: opt, Value: i}`. -/
structure InteractChoice where
  Display : String
  Value : Int
deriving DecidableEq, Repr

/-- The guard computed by the loop in `WriterUI.AskForChoice`: set when some
choice string equals `strconv.Itoa(opts.DefaultValue)`. -/
def WriterUI.defaultMatchingWithChoices (opts : ChoiceOpts) : Bool :=
  opts.Choices.any (fun opt => opt == strconv.Itoa opts.DefaultValue)

/-- The entries `WriterUI.AskForChoice` builds for the prompt engine: each
choice label paired with its position index. -/
def WriterUI.interactChoices (opts : ChoiceOpts) : List InteractChoice :=
  opts.Choices.enum.map (fun p => ⟨p.2, Int.ofNat p.1⟩)

/-- `WriterUI.AskForText`: resolve the prompt through the engine (label,
initial target value `opts.DefaultValue`); wrap an engine failure. -/
def WriterUI.AskForText (opts : TextOpts)
    (engine : String → String → ResolveResult String) : String × Option GoError :=
  match engine opts.Label opts.DefaultValue with
  | .ok v => (v, none)
  | .fail msg => ("", some ("Asking for text: " ++ msg))

/-- `WriterUI.AskForChoice`: if no choice string equals the decimal form of the default value, i.e.
decimal form, fail before consulting the engine with an error naming the
default and the choice list; otherwise resolve through the engine (label,
built choices, initial target `opts.DefaultValue`), wrapping engine failure. -/
def WriterUI.AskForChoice (opts : ChoiceOpts)
    (engine : String → List InteractChoice → Int → ResolveResult Int) :
    Int × Option GoError :=
  if !WriterUI.defaultMatchingWithChoices opts then
    (0, some ("Default value: " ++ strconv.Itoa opts.DefaultValue ++
      " should match with one of the choices: " ++ goFmtStringSlice opts.Choices))
  else
    match engine opts.Label (WriterUI.interactChoices opts) opts.DefaultValue with
    | .ok v => (v, none)
    | .fail msg => (0, some ("Asking for choice: " ++ msg))

/-- `WriterUI.AskForPassword`: resolve a masked-input prompt through the
engine (initial target the empty password); wrap an engine failure. -/
def WriterUI.AskForPassword (label : String)
    (engine : String → String → ResolveResult String) : String × Option GoError :=
  match engine label "" with
  | .ok v => (v, none)
  | .fail msg => ("", some ("Asking for password: " ++ msg))

/-- `WriterUI.AskForConfirmation`: resolve a yes/no prompt labelled
`"Continue?"` with initial target `false`; wrap an engine failure; if the
resolved answer is `false`, return the error `"Stopped"`; else nil. -/
def WriterUI.AskForConfirmation (engine : String → Bool → ResolveResult Bool) :
    Option GoError :=
  match engine "Continue?" false with
  | .fail msg => some ("Asking for confirmation: " ++ msg)
  | .ok b => if b = false then some "Stopped" else none

/-- `WriterUI.IsInteractive` reports true. -/
def WriterUI.IsInteractive : Bool := true

/-! ## Claims -/

/-- C1 counterexample: a validator that reports invalid with a nil Go error.
`NonInteractiveUI.AskForText` then returns the pair `("", none)` — a NIL
error — and `AskForChoice` returns `(0, none)`, so neither call "fails, i.e.
returns a non-nil error" as the claim states. -/
theorem claim_C1_counterexample :
    ((NonInteractiveUI.mk ()).AskForText
        ⟨"label", "dflt", "dflt", some (fun _ => (false, none))⟩).2 = none ∧
    ((NonInteractiveUI.mk ()).AskForChoice
        ⟨"label", ["a"], 0, 0, some (fun _ => (false, none))⟩).2 = none :=
  ⟨rfl, rfl⟩

/-- C1 (amended): when the validator applied to the default returns a non-nil
error, `NonInteractiveUI.AskForText` fails with exactly that non-nil error
(and `AskForChoice` likewise); when the validator merely reports invalid with
a nil error, the call returns the zero value with a NIL error instead of
failing. -/
theorem claim_C1_amended {P : Type} (ui : NonInteractiveUI P)
    (topts : TextOpts) (copts : ChoiceOpts)
    (f : String → Bool × Option GoError) (g : Int → Bool × Option GoError)
    (hf : topts.ValidateFunc = some f) (hg : copts.ValidateFunc = some g) :
    ((f topts.Default).2 ≠ none →
      ui.AskForText topts = ("", (f topts.Default).2) ∧ (ui.AskForText topts).2 ≠ none) ∧
    ((f topts.Default).1 = false ∧ (f topts.Default).2 = none →
      ui.AskForText topts = ("", none)) ∧
    ((g copts.Default).2 ≠ none →
      ui.AskForChoice copts = (0, (g copts.Default).2) ∧ (ui.AskForChoice copts).2 ≠ none) ∧
    ((g copts.Default).1 = false ∧ (g copts.Default).2 = none →
      ui.AskForChoice copts = (0, none)) := by
  refine ⟨fun herr => ?_, fun ⟨hv, he⟩ => ?_, fun herr => ?_, fun ⟨hv, he⟩ => ?_⟩
  · have hs : ((f topts.Default).2.isSome || !(f topts.Default).1) = true := by
      simp [Option.isSome_iff_ne_none, herr]
    refine ⟨?_, ?_⟩ <;> simp [NonInteractiveUI.AskForText, hf, hs, herr]
  · simp [NonInteractiveUI.AskForText, hf, hv, he]
  · have hs : ((g copts.Default).2.isSome || !(g copts.Default).1) = true := by
      simp [Option.isSome_iff_ne_none, herr]
    refine ⟨?_, ?_⟩ <;> simp [NonInteractiveUI.AskForChoice, hg, hs, herr]
  · simp [NonInteractiveUI.AskForChoice, hg, hv, he]

/-- C1 (amended) witness: a validator failing with error "bad" on the text
default, and one failing with error "boom" on the choice default. -/
theorem claim_C1_amended_witness :
    (NonInteractiveUI.mk ()).AskForText
        ⟨"l", "d", "d", some (fun _ => (false, some "bad"))⟩ = ("", some "bad") ∧
    (NonInteractiveUI.mk ()).AskForChoice
        ⟨"l", ["a"], 2, 2, some (fun _ => (true, some "boom"))⟩ = (0, some "boom") :=
  ⟨((claim_C1_amended (NonInteractiveUI.mk ())
      ⟨"l", "d", "d", some (fun _ => (false, some "bad"))⟩
      ⟨"l", ["a"], 2, 2, some (fun _ => (true, some "boom"))⟩
      (fun _ => (false, some "bad")) (fun _ => (true, some "boom"))
      rfl rfl).1 (by simp)).1,
   ((claim_C1_amended (NonInteractiveUI.mk ())
      ⟨"l", "d", "d", some (fun _ => (false, some "bad"))⟩
      ⟨"l", ["a"], 2, 2, some (fun _ => (true, some "boom"))⟩
      (fun _ => (false, some "bad")) (fun _ => (true, some "boom"))
      rfl rfl).2.2.1 (by simp)).1⟩

/-- C2: when the validator on the default reports a non-nil error or invalid,
`NonInteractiveUI.AskForText` returns the empty string paired with exactly the
error the validator returned (so `("", none)` when invalid with a nil error),
and `AskForChoice` returns `0` paired with exactly that error. -/
theorem claim_C2 {P Q : Type} (uiT : NonInteractiveUI P) (uiC : NonInteractiveUI Q)
    (topts : TextOpts) (copts : ChoiceOpts)
    (f : String → Bool × Option GoError) (g : Int → Bool × Option GoError)
    (hf : topts.ValidateFunc = some f) (hg : copts.ValidateFunc = some g)
    (hfbad : (f topts.Default).2 ≠ none ∨ (f topts.Default).1 = false)
    (hgbad : (g copts.Default).2 ≠ none ∨ (g copts.Default).1 = false) :
    uiT.AskForText topts = ("", (f topts.Default).2) ∧
    uiC.AskForChoice copts = (0, (g copts.Default).2) := by
  constructor
  · have hs : ((f topts.Default).2.isSome || !(f topts.Default).1) = true := by
      rcases hfbad with h | h
      · simp [Option.isSome_iff_ne_none, h]
      · simp [h]
    simp [NonInteractiveUI.AskForText, hf, hs]
  · have hs : ((g copts.Default).2.isSome || !(g copts.Default).1) = true := by
      rcases hgbad with h | h
      · simp [Option.isSome_iff_ne_none, h]
      · simp [h]
    simp [NonInteractiveUI.AskForChoice, hg, hs]

/-- C2 witness: a text validator reporting invalid with a nil error (the pair
`("", none)` comes back) and a choice validator failing with error "boom". -/
theorem claim_C2_witness :
    (NonInteractiveUI.mk ()).AskForText
        ⟨"l", "d", "d", some (fun _ => (false, none))⟩ = ("", none) ∧
    (NonInteractiveUI.mk ()).AskForChoice
        ⟨"l", ["a", "b"], 1, 1, some (fun _ => (true, some "boom"))⟩ = (0, some "boom") :=
  claim_C2 (NonInteractiveUI.mk ()) (NonInteractiveUI.mk ())
    ⟨"l", "d", "d", some (fun _ => (false, none))⟩
    ⟨"l", ["a", "b"], 1, 1, some (fun _ => (true, some "boom"))⟩
    (fun _ => (false, none)) (fun _ => (true, some "boom"))
    rfl rfl (Or.inr rfl) (Or.inl (by simp))

/-- C3: with no validator, or with a validator answering `(true, nil)` on the
default, `NonInteractiveUI.AskForText` returns the default unchanged with a
nil error, and `AskForChoice` returns the default index unchanged with a nil
error. -/
theorem claim_C3 {P : Type} (ui : NonInteractiveUI P)
    (topts : TextOpts) (copts : ChoiceOpts)
    (htext : topts.ValidateFunc = none ∨
      ∃ f, topts.ValidateFunc = some f ∧ f topts.Default = (true, none))
    (hchoice : copts.ValidateFunc = none ∨
      ∃ g, copts.ValidateFunc = some g ∧ g copts.Default = (true, none)) :
    ui.AskForText topts = (topts.Default, none) ∧
    ui.AskForChoice copts = (copts.Default, none) := by
  constructor
  · rcases htext with h | ⟨f, hf, hok⟩
    · simp [NonInteractiveUI.AskForText, h]
    · simp [NonInteractiveUI.AskForText, hf, hok]
  · rcases hchoice with h | ⟨g, hg, hok⟩
    · simp [NonInteractiveUI.AskForChoice, h]
    · simp [NonInteractiveUI.AskForChoice, hg, hok]

/-- C3 witness: no validator on the text prompt, an always-accepting validator
on the choice prompt; the defaults come back unchanged. -/
theorem claim_C3_witness :
    (NonInteractiveUI.mk ()).AskForText ⟨"l", "d", "d", none⟩ = ("d", none) ∧
    (NonInteractiveUI.mk ()).AskForChoice
        ⟨"l", ["a", "b"], 1, 1, some (fun _ => (true, none))⟩ = (1, none) :=
  claim_C3 (NonInteractiveUI.mk ()) ⟨"l", "d", "d", none⟩
    ⟨"l", ["a", "b"], 1, 1, some (fun _ => (true, none))⟩
    (Or.inl rfl) (Or.inr ⟨fun _ => (true, none), rfl, rfl⟩)

/-- C4: when no choice string equals the decimal form of the default index,
`WriterUI.AskForChoice` returns, for EVERY prompt engine (hence without
consulting it), the error naming the bad default and the choice set; in
particular with choices `["a", "b", "c"]` and default index `1` the call
fails, because the match is against the decimal string of the default, not
its position. -/
theorem claim_C4 (opts : ChoiceOpts)
    (h : ∀ c ∈ opts.Choices, c ≠ strconv.Itoa opts.DefaultValue) :
    (∀ engine, WriterUI.AskForChoice opts engine =
      (0, some ("Default value: " ++ strconv.Itoa opts.DefaultValue ++
        " should match with one of the choices: " ++ goFmtStringSlice opts.Choices))) ∧
    (∀ engine₁ engine₂,
      WriterUI.AskForChoice opts engine₁ = WriterUI.AskForChoice opts engine₂) ∧
    (∀ engine, WriterUI.AskForChoice ⟨"l", ["a", "b", "c"], 1, 1, none⟩ engine =
      (0, some "Default value: 1 should match with one of the choices: [a b c]")) := by
  have hm : WriterUI.defaultMatchingWithChoices opts = false := by
    refine Bool.eq_false_iff.mpr fun hany => ?_
    rw [WriterUI.defaultMatchingWithChoices, List.any_eq_true] at hany
    obtain ⟨c, hc, hceq⟩ := hany
    exact h c hc (eq_of_beq hceq)
  refine ⟨fun engine => ?_, fun engine₁ engine₂ => ?_, fun engine => ?_⟩
  · simp [WriterUI.AskForChoice, hm]
  · simp [WriterUI.AskForChoice, hm]
  · rfl

/-- C4 witness: choices `["a", "b", "c"]` with default index `1` (and an
engine that would just echo its initial value) are rejected with the error
naming `1` and `[a b c]`. -/
theorem claim_C4_witness :
    WriterUI.AskForChoice ⟨"l", ["a", "b", "c"], 1, 1, none⟩ (fun _ _ d => .ok d) =
      (0, some "Default value: 1 should match with one of the choices: [a b c]") :=
  (claim_C4 ⟨"l", ["a", "b", "c"], 1, 1, none⟩ (by decide)).2.2 (fun _ _ d => .ok d)

/-- C5: `NonInteractiveUI.AskForPassword` panics on every label and never
returns a (secret, error) pair normally. -/
theorem claim_C5 {P : Type} (ui : NonInteractiveUI P) (label : String) :
    ui.AskForPassword label =
      .panics "Cannot ask for password in non-interactive UI" ∧
    ∀ v : String × Option GoError, ui.AskForPassword label ≠ .ret v := by
  refine ⟨rfl, fun v h => ?_⟩
  simp [NonInteractiveUI.AskForPassword] at h

/-- C5 witness: a concrete wrapped UI and label. -/
theorem claim_C5_witness :
    (NonInteractiveUI.mk ()).AskForPassword "secret prompt" =
      .panics "Cannot ask for password in non-interactive UI" :=
  (claim_C5 (NonInteractiveUI.mk ()) "secret prompt").1

/-- C6: in `WriterUI.AskForConfirmation`, if the engine succeeds and the
resolved answer is not affirmative (in particular the default `false`), the
call returns the "Stopped" error; and the call returns nil exactly when the
engine succeeds with an affirmative answer. -/
theorem claim_C6 (engine : String → Bool → ResolveResult Bool) :
    (engine "Continue?" false = .ok false →
      WriterUI.AskForConfirmation engine = some "Stopped") ∧
    (WriterUI.AskForConfirmation engine = none ↔
      engine "Continue?" false = .ok true) := by
  constructor
  · intro h
    simp [WriterUI.AskForConfirmation, h]
  · unfold WriterUI.AskForConfirmation
    cases h : engine "Continue?" false with
    | ok b => cases b <;> simp
    | fail msg => simp

/-- C6 witness: an engine that leaves the initial `false` in place makes the
confirmation fail with "Stopped". -/
theorem claim_C6_witness :
    WriterUI.AskForConfirmation (fun _ b => .ok b) = some "Stopped" :=
  (claim_C6 (fun _ b => .ok b)).1 rfl

/-- C9: `NonInteractiveUI.AskForConfirmation` returns nil for every wrapped
parent UI (the function is stateless, so a fortiori after any prior call
sequence). -/
theorem claim_C9 {P : Type} (ui : NonInteractiveUI P) :
    ui.AskForConfirmation = none :=
  rfl

/-- C9 witness: a concrete wrapped parent. -/
theorem claim_C9_witness :
    (NonInteractiveUI.mk "some parent UI").AskForConfirmation = none :=
  claim_C9 (NonInteractiveUI.mk "some parent UI")

/-- C10: the precondition check of `WriterUI.AskForChoice` passes exactly when
some choice string at ANY position equals the decimal form of the default
index, so it does not ensure the default index is in range: with choices
`["1"]` and default index `1`, the check passes although the index is out of
bounds, and the call proceeds to the prompt engine (the engine answer, or its
failure, is what the call returns). -/
theorem claim_C10 :
    (∀ opts : ChoiceOpts, WriterUI.defaultMatchingWithChoices opts = true ↔
      ∃ c ∈ opts.Choices, c = strconv.Itoa opts.DefaultValue) ∧
    WriterUI.defaultMatchingWithChoices ⟨"l", ["1"], 1, 1, none⟩ = true ∧
    ¬((⟨"l", ["1"], 1, 1, none⟩ : ChoiceOpts).DefaultValue.toNat <
      (⟨"l", ["1"], 1, 1, none⟩ : ChoiceOpts).Choices.length) ∧
    (∀ v : Int, WriterUI.AskForChoice ⟨"l", ["1"], 1, 1, none⟩
      (fun _ _ _ => .ok v) = (v, none)) ∧
    WriterUI.AskForChoice ⟨"l", ["1"], 1, 1, none⟩
      (fun _ _ _ => .fail "engine reached") =
      (0, some "Asking for choice: engine reached") := by
  refine ⟨fun opts => ?_, by decide, by decide, fun v => rfl, rfl⟩
  simp [WriterUI.defaultMatchingWithChoices, List.any_eq_true, beq_iff_eq]

/-- C10 witness: with choices `["1"]` and out-of-range default index `1`, an
engine answering `0` is consulted and its answer returned. -/
theorem claim_C10_witness :
    WriterUI.AskForChoice ⟨"l", ["1"], 1, 1, none⟩ (fun _ _ _ => .ok 0) =
      (0, none) :=
  claim_C10.2.2.2.1 0

/-- C7 counterexample: a failing table render. `WriterUI.PrintTable` logs only
the underlying cause ("boom"); the offending payload ("rendered") is NOT among
the logged arguments, so the claim that every output operation logs the
offending message/payload together with the cause is false for `PrintTable`. -/
theorem claim_C7_counterexample :
    (WriterUI.PrintTable "rendered" (.fail "boom")).1.logs =
      [⟨"ui", "UI.PrintTable failed: %s", ["boom"]⟩] ∧
    ¬("rendered" ∈
      (⟨"ui", "UI.PrintTable failed: %s", ["boom"]⟩ : LogCall).args) :=
  ⟨rfl, by decide⟩

/-- C7 (amended): no `WriterUI` output operation ever surfaces a stream-write
or render failure as a returned error — each call completes normally — and on
failure the external logger is invoked with the underlying cause, together
with the offending message/payload for `ErrorLinef`, `PrintLinef`,
`BeginLinef`, `EndLinef`, `PrintBlock` and `PrintErrorBlock`; `PrintTable`
logs only the cause, without the payload. -/
theorem claim_C7_amended (message e : String) (w : WriteResult) :
    ((WriterUI.ErrorLinef message w).2 = none ∧
     (WriterUI.PrintLinef message w).2 = none ∧
     (WriterUI.BeginLinef message w).2 = none ∧
     (WriterUI.EndLinef message w).2 = none ∧
     (WriterUI.PrintBlock message w).2 = none ∧
     (WriterUI.PrintErrorBlock message w).2 = none ∧
     (WriterUI.PrintTable message w).2 = none) ∧
    ((WriterUI.ErrorLinef message (.fail e)).1.logs =
       [⟨"ui", "UI.ErrorLinef failed (message=\x27%s\x27): %s", [message, e]⟩] ∧
     (WriterUI.PrintLinef message (.fail e)).1.logs =
       [⟨"ui", "UI.PrintLinef failed (message=\x27%s\x27): %s", [message, e]⟩] ∧
     (WriterUI.BeginLinef message (.fail e)).1.logs =
       [⟨"ui", "UI.BeginLinef failed (message=\x27%s\x27): %s", [message, e]⟩] ∧
     (WriterUI.EndLinef message (.fail e)).1.logs =
       [⟨"ui", "UI.EndLinef failed (message=\x27%s\x27): %s", [message, e]⟩] ∧
     (WriterUI.PrintBlock message (.fail e)).1.logs =
       [⟨"ui", "UI.PrintBlock failed (message=\x27%s\x27): %s", [message, e]⟩] ∧
     (WriterUI.PrintErrorBlock message (.fail e)).1.logs =
       [⟨"ui", "UI.PrintErrorBlock failed (message=\x27%s\x27): %s", [message, e]⟩] ∧
     (WriterUI.PrintTable message (.fail e)).1.logs =
       [⟨"ui", "UI.PrintTable failed: %s", [e]⟩]) ∧
    ((WriterUI.ErrorLinef message .ok).1.logs = [] ∧
     (WriterUI.PrintTable message .ok).1.logs = []) :=
  ⟨⟨rfl, rfl, rfl, rfl, rfl, rfl, rfl⟩,
   ⟨rfl, rfl, rfl, rfl, rfl, rfl, rfl⟩,
   ⟨rfl, rfl⟩⟩

/-- C7 (amended) witness: a concrete message, cause and write outcome. -/
theorem claim_C7_amended_witness :
    (WriterUI.PrintLinef "hello" (.fail "disk full")).2 = none ∧
    (WriterUI.PrintLinef "hello" (.fail "disk full")).1.logs =
      [⟨"ui", "UI.PrintLinef failed (message=\x27%s\x27): %s",
        ["hello", "disk full"]⟩] :=
  ⟨(claim_C7_amended "hello" "disk full" (.fail "disk full")).1.2.1,
   (claim_C7_amended "hello" "disk full" (.fail "disk full")).2.1.2.1⟩

/-- C8: `WriterUI.PrintErrorBlock` writes the literal text to the NORMAL
output stream — the very stream `PrintBlock` and `PrintLinef` target — and
not to the error stream, despite its name. -/
theorem claim_C8 (block : String) (w : WriteResult) :
    (WriterUI.PrintErrorBlock block w).1.writes = [⟨.outWriter, block⟩] ∧
    (WriterUI.PrintErrorBlock block w).1.writes.map WriteEvent.stream =
      (WriterUI.PrintBlock block w).1.writes.map WriteEvent.stream ∧
    (WriterUI.PrintErrorBlock block w).1.writes.map WriteEvent.stream =
      (WriterUI.PrintLinef block w).1.writes.map WriteEvent.stream ∧
    UIStream.outWriter ≠ UIStream.errWriter :=
  ⟨rfl, rfl, rfl, by decide⟩

/-- C8 witness: a concrete block and write outcome. -/
theorem claim_C8_witness :
    (WriterUI.PrintErrorBlock "oops" WriteResult.ok).1.writes =
      [⟨UIStream.outWriter, "oops"⟩] :=
  (claim_C8 "oops" WriteResult.ok).1

end GoCliUI
